import Mathlib

/-!
Verification of the dbb_gateway ingest agent (`bin.src/dbb_ingest_ats.py` and
`python/lsst/dbb/gateway/db_funcs.py`) against its natural-language
specification.

The Python code is shallowly embedded: filesystem and database effects become
explicit state (a registry value with a committed and a pending snapshot) and
event traces, exceptions become `Except`, and environmental facts that the code
queries (whether a destination file exists, the outcome of each copy attempt,
file modification times) become explicit parameters.
-/

namespace DbbGateway

/-- Python's `str.endswith(suffix)`, computed on the character list. -/
def strEndsWith (s suffix : String) : Bool :=
  s.toList.reverse.take suffix.toList.length == suffix.toList.reverse

/-- Python's `os.path.basename` for slash-separated paths: the suffix of the
path after the last `/`. -/
def basename (s : String) : String :=
  String.mk (s.toList.foldl (fun acc c => if c = '/' then [] else acc ++ [c]) [])

/-- Python exception classes that the embedded code can raise. -/
inductive PyError
  | typeError
  | keyError
  | valueError
  | ioError
  | fileNotFound
deriving DecidableEq, Repr

/-- `DEFAULT_MV_TRIES = 5` from dbb_ingest_ats.py. -/
def DEFAULT_MV_TRIES : Nat := 5

/-- `DUPLICATE_MSG = "Duplicate file"` from dbb_ingest_ats.py. -/
def DUPLICATE_MSG : String := "Duplicate file"

/-- The rejection message used by `save_file_datastore` when the destination
already exists (dbb_ingest_ats.py line 271). -/
def consistencyMsg : String := "Consistency error.  Already on disk in DBB"

/-! ### Transfer engine: `move_file_to_dbb` (dbb_ingest_ats.py lines 283-340)

Each iteration of the `while` loop performs `makedirs` + `shutil.copy2` +
`chksum_utils.calc_chksum`.  The environment decides, per attempt number,
whether that raised an `IOError` (and whether the destination file exists
afterwards) or completed, producing some checksum for the destination copy. -/

/-- Outcome of one copy-and-checksum attempt, chosen by the environment. -/
inductive AttemptOutcome
  | ioError (dstExists : Bool)
  | checksummed (c : String)
deriving DecidableEq, Repr

/-- Filesystem events emitted by `move_file_to_dbb`. -/
inductive MoveEvent
  | copyAttempt
  | unlinkDst
  | unlinkSrc
deriving DecidableEq, Repr

/-- Events of one loop iteration of `move_file_to_dbb`: the copy attempt,
followed by `os.unlink(dst)` when the attempt failed with the partial
destination present (checksum mismatch, or IOError with `dst` on disk). -/
def attemptEvents : AttemptOutcome → Option String → List MoveEvent
  | AttemptOutcome.ioError de, _ =>
      MoveEvent.copyAttempt :: (if de then [MoveEvent.unlinkDst] else [])
  | AttemptOutcome.checksummed _, none => [MoveEvent.copyAttempt]
  | AttemptOutcome.checksummed c, some e =>
      if c == e then [MoveEvent.copyAttempt] else [MoveEvent.copyAttempt, MoveEvent.unlinkDst]

/-- Whether one loop iteration sets `copied = True`: the attempt raised no
IOError and either `expected_chksum is None` or the checksums match. -/
def attemptOK : AttemptOutcome → Option String → Bool
  | AttemptOutcome.ioError _, _ => false
  | AttemptOutcome.checksummed _, none => true
  | AttemptOutcome.checksummed c, some e => c == e

/-- The retry loop of `move_file_to_dbb`: `cnt` is the current value of
`cp_cnt`, `rem` the number of loop iterations still allowed
(`max_tries - cp_cnt + 1`); the loop exits when `rem = 0` (`cp_cnt > max_tries`)
or when an attempt succeeds.  Returns the event trace and the final `copied`. -/
def moveLoop (out : Nat → AttemptOutcome) (expected : Option String) :
    Nat → Nat → List MoveEvent × Bool
  | _, 0 => ([], false)
  | cnt, rem + 1 =>
      if attemptOK (out cnt) expected then (attemptEvents (out cnt) expected, true)
      else
        let r := moveLoop out expected (cnt + 1) rem
        (attemptEvents (out cnt) expected ++ r.1, r.2)

/-- `move_file_to_dbb` (dbb_ingest_ats.py lines 283-340).  After the loop,
`raise IOError` if not copied (result `false`), else `os.unlink(src)` completes
the move (result `true`). -/
def move_file_to_dbb (out : Nat → AttemptOutcome) (expected : Option String)
    (maxTries : Nat) : List MoveEvent × Bool :=
  let r := moveLoop out expected 1 maxTries
  if r.2 then (r.1 ++ [MoveEvent.unlinkSrc], true) else (r.1, false)

/-! ### Registry data model (tables used by db_funcs.py)

The database connection holds a committed snapshot and a pending snapshot of
the tables; `commit` publishes pending, `rollback` restores committed.  Oracle
sequences are not transactional, so the two sequence counters live on the
connection, outside the snapshots. -/

/-- A row of the `process` table (`create_new_process`, `save_end_time`). -/
structure ProcessRow where
  id : Nat
  startTime : Nat
  endTimeSet : Bool
deriving DecidableEq, Repr

/-- A row of the `dataset` table (`register_file_data`). -/
structure DatasetRow where
  id : Nat
  processId : Nat
  datasetType : String
deriving DecidableEq, Repr

/-- A row of the `datastore_dbb` table (`save_datastore_info`). -/
structure DatastoreRow where
  datasetId : Nat
  filename : String
  relpath : String
  filesize : Nat
  chksum : String
  chksumType : String
deriving DecidableEq, Repr

/-- The columns of `dbb_bad_file` copied from `src_info` by `save_bad_file_db`
when `src_info is not None`. -/
structure BadSrcCols where
  filename : String
  datasetType : String
  filesize : Nat
  chksum : String
  chksumType : String
  processId : Nat
deriving DecidableEq, Repr

/-- A row of the `dbb_bad_file` table (`save_bad_file_db`). -/
structure BadFileRow where
  deliveryDate : Nat
  uniqFilename : String
  relpath : String
  diskUsage : Nat
  rejectedMsg : String
  rejectedDate : Nat
  srcCols : Option BadSrcCols
deriving DecidableEq, Repr

/-- One snapshot of the registry tables. -/
structure RegistryDb where
  processes : List ProcessRow
  fileRegistration : List Nat
  fileRegLookup : List (String × Nat)
  datasets : List DatasetRow
  datastore : List DatastoreRow
  badFiles : List BadFileRow
deriving DecidableEq, Repr

/-- An open database connection: non-transactional sequence counters plus the
committed and pending table snapshots. -/
structure DbConn where
  processSeq : Nat
  datasetSeq : Nat
  committed : RegistryDb
  pending : RegistryDb
deriving DecidableEq, Repr

/-- `dbh.commit()`. -/
def DbConn.commit (c : DbConn) : DbConn := { c with committed := c.pending }

/-- `dbh.rollback()`. -/
def DbConn.rollback (c : DbConn) : DbConn := { c with pending := c.committed }

/-- The `src_info` dictionary read from the bundle's manifest
(`read_info_file`), with `tar_filename` added by `handle_tarball` and the
dynamically-added `process_id` key modelled as an `Option`. -/
structure SrcInfo where
  uuid : String
  filename : String
  datasetType : String
  chksum : String
  chksumType : String
  filesize : Nat
  timestamp : Nat
  user : String
  provMsg : String
  tarFilename : String
  processId : Option Nat
deriving DecidableEq, Repr

/-! ### db_funcs.py -/

/-- `db_funcs.filename_exists_in_dbb` (db_funcs.py lines 101-121): is there a
`datastore_dbb` row with this filename? -/
def filename_exists_in_dbb (db : RegistryDb) (filename : String) : Bool :=
  (db.datastore.find? (fun r => r.filename == filename)).isSome

/-- `db_funcs.get_registration_process_id` (db_funcs.py lines 203-229): look up
the process id registered for a uuid in `file_registration_lookup`. -/
def get_registration_process_id (db : RegistryDb) (uuid : String) : Option Nat :=
  match db.fileRegLookup.find? (fun p => p.1 == uuid) with
  | some p => some p.2
  | none => none

/-- `db_funcs.create_new_process` (db_funcs.py lines 232-259): draw an id from
`PROCESS_SEQ` and insert a `process` row. -/
def create_new_process (conn : DbConn) (info : SrcInfo) : Nat × DbConn :=
  let pid := conn.processSeq
  let conn := { conn with processSeq := conn.processSeq + 1 }
  let db := conn.pending
  (pid, { conn with pending :=
    { db with processes := db.processes ++ [⟨pid, info.timestamp, false⟩] } })

/-- `db_funcs.save_registration_info` (db_funcs.py lines 262-295): create the
process row, the `file_registration` row and the `file_registration_lookup`
row, then `dbh.commit()`. -/
def save_registration_info (conn : DbConn) (info : SrcInfo) : Nat × DbConn :=
  let r := create_new_process conn info
  let pid := r.1
  let conn := r.2
  let db := conn.pending
  let db := { db with
    fileRegistration := db.fileRegistration ++ [pid],
    fileRegLookup := db.fileRegLookup ++ [(info.uuid, pid)] }
  (pid, DbConn.commit { conn with pending := db })

/-- `db_funcs.register_file_data` (db_funcs.py lines 124-147): draw an id from
`DATASET_SEQ` and insert a `dataset` row (no commit). -/
def register_file_data (conn : DbConn) (info : SrcInfo) (pid : Nat) : Nat × DbConn :=
  let did := conn.datasetSeq
  let conn := { conn with datasetSeq := conn.datasetSeq + 1 }
  let db := conn.pending
  (did, { conn with pending :=
    { db with datasets := db.datasets ++ [⟨did, pid, info.datasetType⟩] } })

/-- `db_funcs.save_datastore_info` (db_funcs.py lines 75-98): insert the
`datastore_dbb` row for the moved payload (no commit). -/
def save_datastore_info (conn : DbConn) (info : SrcInfo) (relpath : String)
    (did : Nat) : DbConn :=
  { conn with pending := { conn.pending with
      datastore := conn.pending.datastore ++
        [⟨did, info.filename, relpath, info.filesize, info.chksum, info.chksumType⟩] } }

/-- `db_funcs.save_end_time` (db_funcs.py lines 150-163): set `end_time` on the
process row (no commit). -/
def save_end_time (conn : DbConn) (pid : Nat) : DbConn :=
  { conn with pending := { conn.pending with
      processes := conn.pending.processes.map
        (fun r => if r.id = pid then { r with endTimeSet := true } else r) } }

/-- The `bad_info` dictionary built by `handle_bad_file`. -/
structure BadInfo where
  deliveryDate : Nat
  uniqFilename : String
  diskUsage : Nat
  rejectedDate : Nat
  rejectedMsg : String
  relpath : String
deriving DecidableEq, Repr

/-- Database events and filesystem events observed while a bundle is
processed. -/
inductive Ev
  | lookupProcess
  | createProcess
  | dupCheck (dup : Bool)
  | insertDataset (id : Nat)
  | insertDatastore
  | removeTar
  | saveEndTime
  | commitDb
  | rollbackDb
  | removeStaleBad
  | moveTarToBad
  | insertBadFile (msg : String)
  | move (e : MoveEvent)
deriving DecidableEq, Repr

/-- `db_funcs.save_bad_file_db` (db_funcs.py lines 166-200): copy the manifest
columns when `src_info is not None` (raising `KeyError` if the dynamic
`process_id` key was never added), insert the `dbb_bad_file` row, and
`dbh.commit()` — its own transaction, independent of the main one. -/
def save_bad_file_db (conn : DbConn) (b : BadInfo) (srcInfo : Option SrcInfo) :
    Except PyError (DbConn × List Ev) :=
  let srcCols : Except PyError (Option BadSrcCols) :=
    match srcInfo with
    | none => Except.ok none
    | some info =>
        match info.processId with
        | none => Except.error PyError.keyError
        | some pid =>
            Except.ok (some ⟨info.filename, info.datasetType, info.filesize,
              info.chksum, info.chksumType, pid⟩)
  match srcCols with
  | Except.error e => Except.error e
  | Except.ok sc =>
      let row : BadFileRow :=
        ⟨b.deliveryDate, b.uniqFilename, b.relpath, b.diskUsage, b.rejectedMsg,
          b.rejectedDate, sc⟩
      let conn := { conn with pending :=
        { conn.pending with badFiles := conn.pending.badFiles ++ [row] } }
      Except.ok (conn.commit, [Ev.insertBadFile b.rejectedMsg, Ev.commitDb])

/-! ### Quarantine handler: `move_bad_file` and `handle_bad_file`
(dbb_ingest_ats.py lines 456-521) -/

/-- Zero-padded decimal rendering, as Python's `"%04d"` / `"%02d"`. -/
def pad (w n : Nat) : String :=
  let s := toString n
  String.mk (List.replicate (w - s.length) '0') ++ s

/-- Environmental facts consulted by the quarantine handler: the archive's size
and mtime on disk, the current date/time, and whether a stale same-named file
already sits in the bad-file area. -/
structure BadContext where
  tarSize : Nat
  tarMtime : Nat
  year : Nat
  month : Nat
  now : Nat
  staleExists : Bool
deriving Repr

/-- `move_bad_file` (dbb_ingest_ats.py lines 456-484): compute the
year/month-bucketed relative path, remove a stale same-named file if present,
and move the tarball there.  Returns the relative path and the events. -/
def move_bad_file (ctx : BadContext) : String × List Ev :=
  let relpath := pad 4 ctx.year ++ "/" ++ pad 2 ctx.month
  (relpath, (if ctx.staleExists then [Ev.removeStaleBad] else []) ++ [Ev.moveTarToBad])

/-- `handle_bad_file` (dbb_ingest_ats.py lines 487-521).  It first rolls back,
then evaluates `src_info["dataset_type"]` (line 505) and
`src_info["tar_filename"]` (lines 513-514) unconditionally: when `src_info` is
`None` this raises `TypeError` before any record is written, so the
`else` branch that would take the delivery date from the archive's mtime
(line 511) is unreachable.  When `src_info` was parsed, the delivery date is
the manifest timestamp, the tarball is moved to the bad-file area, and the
`dbb_bad_file` row is written and committed by `save_bad_file_db`. -/
def handle_bad_file (conn : DbConn) (srcInfo : Option SrcInfo) (ctx : BadContext)
    (msg : String) : Except PyError (DbConn × List Ev) :=
  let conn := conn.rollback
  match srcInfo with
  | none => Except.error PyError.typeError
  | some info =>
      let b1 : BadInfo :=
        { deliveryDate := info.timestamp
          uniqFilename := basename info.tarFilename
          diskUsage := ctx.tarSize
          rejectedDate := ctx.now
          rejectedMsg := msg
          relpath := "" }
      let mv := move_bad_file ctx
      let b2 := { b1 with relpath := mv.1 }
      match save_bad_file_db conn b2 (some info) with
      | Except.error e => Except.error e
      | Except.ok r => Except.ok (r.1, [Ev.rollbackDb] ++ mv.2 ++ r.2)

/-! ### `save_file_datastore` and the registration phase of `handle_tarball`
(dbb_ingest_ats.py lines 246-280 and 413-434) -/

/-- Environmental facts for one bundle's storage step: whether the resolved
destination already exists, the relative path resolved by `create_dbb_path`
(external FITS-header work), the per-attempt transfer outcomes, and the
quarantine context. -/
structure FsEnv where
  dstExists : Bool
  relpath : String
  out : Nat → AttemptOutcome
  bad : BadContext

/-- `save_file_datastore` (dbb_ingest_ats.py lines 246-280).  When the resolved
destination already exists it calls `handle_bad_file` with the consistency
message — but does not raise or return, so execution falls through to
`move_file_to_dbb`, whose `shutil.copy2` overwrites the existing destination,
and to `save_datastore_info`.  The returned Bool records whether the tarball is
still in the delivery area (false once `handle_bad_file` moved it). -/
def save_file_datastore (conn : DbConn) (info : SrcInfo) (fs : FsEnv) (did : Nat) :
    Except PyError (DbConn × List Ev × Bool) :=
  let step1 : Except PyError (DbConn × List Ev × Bool) :=
    if fs.dstExists then
      match handle_bad_file conn (some info) fs.bad consistencyMsg with
      | Except.error e => Except.error e
      | Except.ok r => Except.ok (r.1, r.2, false)
    else Except.ok (conn, [], true)
  match step1 with
  | Except.error e => Except.error e
  | Except.ok (conn, evs, tarOnDisk) =>
      let mv := move_file_to_dbb fs.out (some info.chksum) DEFAULT_MV_TRIES
      if mv.2 then
        let conn := save_datastore_info conn info fs.relpath did
        Except.ok (conn, evs ++ mv.1.map Ev.move ++ [Ev.insertDatastore], tarOnDisk)
      else Except.error PyError.ioError

/-- Lines 413-417 of `handle_tarball`: look up the `RegistrationProcess` by
uuid; create one (committing) only when the lookup found nothing. -/
def resolve_process (conn : DbConn) (info : SrcInfo) : Nat × DbConn × List Ev :=
  match get_registration_process_id conn.pending info.uuid with
  | some pid => (pid, conn, [Ev.lookupProcess])
  | none =>
      let r := save_registration_info conn info
      (r.1, r.2, [Ev.lookupProcess, Ev.createProcess, Ev.commitDb])

/-- The registration phase of `handle_tarball` (dbb_ingest_ats.py lines
413-434): resolve the process id, check for a duplicate filename (quarantining
with `DUPLICATE_MSG` if found), otherwise create the `dataset` row, store the
payload via `save_file_datastore`, then `os.remove(tar_filename)` (raising
`FileNotFoundError` if the tarball was already moved away), `save_end_time`,
and `dbh.commit()` — in exactly that order. -/
def registration_phase (conn : DbConn) (info : SrcInfo) (fs : FsEnv) :
    Except PyError (DbConn × List Ev) :=
  let r := resolve_process conn info
  let pid := r.1
  let conn := r.2.1
  let evs1 := r.2.2
  let info := { info with processId := some pid }
  if filename_exists_in_dbb conn.pending info.filename then
    match handle_bad_file conn (some info) fs.bad DUPLICATE_MSG with
    | Except.error e => Except.error e
    | Except.ok r2 => Except.ok (r2.1, evs1 ++ [Ev.dupCheck true] ++ r2.2)
  else
    let rd := register_file_data conn info pid
    let did := rd.1
    let conn := rd.2
    match save_file_datastore conn info fs did with
    | Except.error e => Except.error e
    | Except.ok (conn, evs3, tarOnDisk) =>
        if tarOnDisk then
          let conn := save_end_time conn pid
          Except.ok (conn.commit,
            evs1 ++ [Ev.dupCheck false, Ev.insertDataset did] ++ evs3 ++
              [Ev.removeTar, Ev.saveEndTime, Ev.commitDb])
        else Except.error PyError.fileNotFound

/-! ### Delivery scanner: `get_list_tarballs` (dbb_ingest_ats.py lines 524-550) -/

/-- One directory entry of the delivery directory. -/
structure DirEntry where
  name : String
  isDir : Bool
deriving DecidableEq, Repr

/-- `next(os.walk(dir))[2]`: the names of the non-directory entries directly
inside the directory. -/
def os_walk_files (entries : List DirEntry) : List String :=
  (entries.filter (fun e => !e.isDir)).map (fun e => e.name)

/-- `get_list_tarballs` (dbb_ingest_ats.py lines 524-550): `FileNotFoundError`
when the delivery directory does not exist; otherwise keep the non-directory
entries whose names end in `.tar`, prepend the directory, and sort ascending by
modification time (`sorted` is a stable sort, modelled by insertion sort). -/
def get_list_tarballs (dirExists : Bool) (deliveryDir : String)
    (entries : List DirEntry) (getmtime : String → Nat) :
    Except PyError (List String) :=
  if !dirExists then Except.error PyError.fileNotFound
  else
    let filenames := os_walk_files entries
    let tarballs := (filenames.filter (fun f => strEndsWith f ".tar")).map
      (fun f => deliveryDir ++ "/" ++ f)
    Except.ok (List.insertionSort (fun a b => getmtime a ≤ getmtime b) tarballs)

/-! ### `get_filenames` (dbb_ingest_ats.py lines 598-631)

The `for` loop over `glob.glob("*")` classifies each extracted file purely by
suffix; there is no check on the number of files. -/

/-- One iteration of the classification loop: accumulator is
`(filename, info_fname, digest_fname)`. -/
def gfStep (acc : Option String × Option String × Option String) (fname : String) :
    Option String × Option String × Option String :=
  if strEndsWith fname ".info" then (acc.1, some fname, acc.2.2)
  else if strEndsWith fname ".digest" then (acc.1, acc.2.1, some fname)
  else (some fname, acc.2.1, acc.2.2)

/-- `get_filenames` (dbb_ingest_ats.py lines 598-631): classify the extracted
files, starting from `(None, None, None)`. -/
def get_filenames (files : List String) :
    Option String × Option String × Option String :=
  files.foldl gfStep (none, none, none)

/-- The `else` branch condition of the classification loop (payload file). -/
def isPayloadFile (f : String) : Bool :=
  !strEndsWith f ".info" && !strEndsWith f ".digest"

/-- The `.info` branch condition (manifest file). -/
def isInfoFile (f : String) : Bool := strEndsWith f ".info"

/-- The `.digest` branch condition (digest file, reached only when the `.info`
test failed). -/
def isDigestFile (f : String) : Bool :=
  !strEndsWith f ".info" && strEndsWith f ".digest"

/-! ### `get_observing_nite` (dbb_ingest_ats.py lines 124-152)

`datetime.strptime` is modelled by translating the format string to tokens
(`%%` is a literal percent sign, as in CPython's `_strptime`) and matching the
input against them; a numeric directive greedily consumes up to its maximum
number of digits and range-checks the value.  Any failure, including trailing
unconverted data, is `none` (Python: `ValueError`). -/

/-- Parsed date/time fields; strptime defaults are 1900-01-01 00:00:00. -/
structure DateParts where
  year : Nat
  month : Nat
  day : Nat
  hour : Nat
  minute : Nat
  second : Nat
deriving DecidableEq, Repr

/-- The strptime defaults. -/
def DateParts.default : DateParts := ⟨1900, 1, 1, 0, 0, 0⟩

/-- Tokens of a strptime format string. -/
inductive FmtTok
  | lit (c : Char)
  | year
  | month
  | day
  | hour
  | minute
  | second
  | micro
deriving DecidableEq, Repr

/-- Translate a format string to tokens: `%Y %m %d %H %M %S %f` are
directives, `%%` is a literal `%`, any other `%`-sequence is unsupported, and
every other character stands for itself. -/
def strptimeTokens : List Char → Option (List FmtTok)
  | [] => some []
  | '%' :: rest =>
      match rest with
      | [] => none
      | c :: rest2 =>
          let tok : Option FmtTok :=
            if c = 'Y' then some FmtTok.year
            else if c = 'm' then some FmtTok.month
            else if c = 'd' then some FmtTok.day
            else if c = 'H' then some FmtTok.hour
            else if c = 'M' then some FmtTok.minute
            else if c = 'S' then some FmtTok.second
            else if c = 'f' then some FmtTok.micro
            else if c = '%' then some (FmtTok.lit '%')
            else none
          match tok with
          | none => none
          | some t =>
              match strptimeTokens rest2 with
              | none => none
              | some ts => some (t :: ts)
  | c :: rest =>
      match strptimeTokens rest with
      | none => none
      | some ts => some (FmtTok.lit c :: ts)

/-- Greedily take up to `maxN` leading digits. -/
def takeDigits : Nat → List Char → List Char × List Char
  | 0, cs => ([], cs)
  | _ + 1, [] => ([], [])
  | n + 1, c :: rest =>
      if c.isDigit then
        let r := takeDigits n rest
        (c :: r.1, r.2)
      else ([], c :: rest)

/-- Digits to a number. -/
def digitsToNat (ds : List Char) : Nat :=
  ds.foldl (fun a c => a * 10 + (c.toNat - 48)) 0

/-- Maximum digits a directive consumes (`%Y` is four, `%f` up to six). -/
def tokMax : FmtTok → Nat
  | FmtTok.year => 4
  | FmtTok.micro => 6
  | _ => 2

/-- Minimum digits a directive requires. -/
def tokMin : FmtTok → Nat
  | FmtTok.year => 4
  | _ => 1

/-- Range check of a parsed directive value. -/
def tokOK : FmtTok → Nat → Bool
  | FmtTok.month, v => decide (1 ≤ v) && decide (v ≤ 12)
  | FmtTok.day, v => decide (1 ≤ v) && decide (v ≤ 31)
  | FmtTok.hour, v => decide (v ≤ 23)
  | FmtTok.minute, v => decide (v ≤ 59)
  | FmtTok.second, v => decide (v ≤ 61)
  | _, _ => true

/-- Record a directive value in the date parts. -/
def setField : FmtTok → Nat → DateParts → DateParts
  | FmtTok.year, v, dp => { dp with year := v }
  | FmtTok.month, v, dp => { dp with month := v }
  | FmtTok.day, v, dp => { dp with day := v }
  | FmtTok.hour, v, dp => { dp with hour := v }
  | FmtTok.minute, v, dp => { dp with minute := v }
  | FmtTok.second, v, dp => { dp with second := v }
  | _, _, dp => dp

/-- Match the token list against the input; the whole input must be
consumed. -/
def runTokens : List FmtTok → List Char → DateParts → Option DateParts
  | [], input, dp => if input.isEmpty then some dp else none
  | FmtTok.lit c :: ts, input, dp =>
      match input with
      | [] => none
      | x :: xs => if x = c then runTokens ts xs dp else none
  | t :: ts, input, dp =>
      let r := takeDigits (tokMax t) input
      if r.1.length < tokMin t then none
      else
        let v := digitsToNat r.1
        if tokOK t v then runTokens ts r.2 (setField t v dp) else none

/-- `datetime.strptime(s, fmt)`, returning `none` for `ValueError`. -/
def strptime (fmt s : String) : Option DateParts :=
  match strptimeTokens fmt.toList with
  | none => none
  | some ts => runTokens ts s.toList DateParts.default

/-- Days in a month, with Gregorian leap years. -/
def daysInMonth (y m : Nat) : Nat :=
  if m = 2 then (if y % 4 = 0 && (y % 100 ≠ 0 || y % 400 = 0) then 29 else 28)
  else if m = 4 || m = 6 || m = 9 || m = 11 then 30 else 31

/-- `obs_datetime - timedelta(days=1)` on the date fields. -/
def prevDay (dp : DateParts) : DateParts :=
  if dp.day > 1 then { dp with day := dp.day - 1 }
  else if dp.month > 1 then
    { dp with month := dp.month - 1, day := daysInMonth dp.year (dp.month - 1) }
  else { dp with year := dp.year - 1, month := 12, day := 31 }

/-- `obs_datetime.strftime("%Y%m%d")`. -/
def fmtNite (dp : DateParts) : String :=
  pad 4 dp.year ++ pad 2 dp.month ++ pad 2 dp.day

/-- `get_observing_nite` (dbb_ingest_ats.py lines 124-152): use the header's
`obs-nite` if present; otherwise parse `date-obs` with the format string
`"%Y-%m-%dT%%H:%M:%S.%f"` exactly as written in the source (note the doubled
percent sign), applying the before-14:00 previous-day rule to a successful
parse; on `ValueError` fall back to `"%Y-%m-%d"` (no day-boundary rule); if
that also fails the `ValueError` propagates. -/
def get_observing_nite (obsNite : Option String) (dateObs : String) :
    Except PyError String :=
  match obsNite with
  | some n => Except.ok n
  | none =>
      match strptime "%Y-%m-%dT%%H:%M:%S.%f" dateObs with
      | some dp =>
          let dp := if dp.hour < 14 then prevDay dp else dp
          Except.ok (fmtNite dp)
      | none =>
          match strptime "%Y-%m-%d" dateObs with
          | some dp => Except.ok (fmtNite dp)
          | none => Except.error PyError.valueError

/-! ### Trace predicates and concrete inputs used by the theorems -/

/-- `removedOnlyAfterCommitAux seen evs` checks that every `removeTar` in
`evs` is preceded (in `evs` or before, per `seen`) by a `commitDb`. -/
def removedOnlyAfterCommitAux : Bool → List Ev → Bool
  | _, [] => true
  | seen, Ev.removeTar :: rest => seen && removedOnlyAfterCommitAux seen rest
  | _, Ev.commitDb :: rest => removedOnlyAfterCommitAux true rest
  | seen, _ :: rest => removedOnlyAfterCommitAux seen rest

/-- The source archive is deleted only after some commit of the transaction. -/
def removedOnlyAfterCommit (evs : List Ev) : Bool :=
  removedOnlyAfterCommitAux false evs

/-- A registry snapshot in which uuid `u-1` already has registered process 5
and nothing else is stored. -/
def exDb : RegistryDb :=
  ⟨[⟨5, 100, false⟩], [5], [("u-1", 5)], [], [], []⟩

/-- A connection over `exDb` with both snapshots in sync. -/
def exConn : DbConn := ⟨9, 3, exDb, exDb⟩

/-- A parsed manifest for uuid `u-1`, payload `f1.fits`, checksum `abc`. -/
def exInfo : SrcInfo :=
  ⟨"u-1", "f1.fits", "raw", "abc", "md5", 10, 100, "op", "msg", "/del/f1.tar", none⟩

/-- A quarantine context: July 2020, archive of 10 bytes, mtime 100, now
200, no stale file. -/
def exBad : BadContext := ⟨10, 100, 2020, 7, 200, false⟩

/-- Destination free; every copy attempt yields the expected checksum. -/
def exFs : FsEnv := ⟨false, "rel", fun _ => AttemptOutcome.checksummed "abc", exBad⟩

/-- Like `exFs` but the resolved destination already exists on disk. -/
def exFsDst : FsEnv := ⟨true, "rel", fun _ => AttemptOutcome.checksummed "abc", exBad⟩

/-- A registry snapshot that already stores payload filename `f1.fits`
(dataset 2 of process 5). -/
def dupDb : RegistryDb :=
  ⟨[⟨5, 100, false⟩], [5], [("u-1", 5)], [⟨2, 5, "raw"⟩],
    [⟨2, "f1.fits", "rel0", 10, "abc", "md5"⟩], []⟩

/-- A connection over `dupDb` with both snapshots in sync. -/
def dupConn : DbConn := ⟨9, 3, dupDb, dupDb⟩

/-- `exInfo` after `handle_tarball` line 417 added the process id. -/
def exInfoPid : SrcInfo := { exInfo with processId := some 5 }

/-- First-some choice on options (Python `or`-style), used to describe
`foldl`-accumulated classification results. -/
def oor : Option String → Option String → Option String
  | some x, _ => some x
  | none, y => y

/-- An attempt sequence whose first attempt yields a wrong checksum and whose
later attempts yield the expected one. -/
def wOut : Nat → AttemptOutcome := fun k =>
  if k = 1 then AttemptOutcome.checksummed "bad" else AttemptOutcome.checksummed "good"

/-- Delivery directory entries used to exercise the scanner: two tarballs, a
subdirectory and a plain file. -/
def w9entries : List DirEntry :=
  [⟨"b.tar", false⟩, ⟨"sub", true⟩, ⟨"a.tar", false⟩, ⟨"c.txt", false⟩]

/-- Modification times making `a.tar` older than `b.tar`. -/
def w9mtime : String → Nat := fun s => if s = "d/a.tar" then 1 else 2

/-! ### Helper lemmas -/

theorem attemptEvents_not_unlinkSrc (o : AttemptOutcome) (exp : Option String) :
    MoveEvent.unlinkSrc ∉ attemptEvents o exp := by
  cases o with
  | ioError de => cases de <;> simp [attemptEvents]
  | checksummed c =>
      cases exp with
      | none => simp [attemptEvents]
      | some e =>
          cases h : (c == e) <;> simp [attemptEvents, h]

theorem moveLoop_not_unlinkSrc (out : Nat → AttemptOutcome) (exp : Option String) :
    ∀ rem cnt, MoveEvent.unlinkSrc ∉ (moveLoop out exp cnt rem).1 := by
  intro rem
  induction rem with
  | zero => intro cnt; simp [moveLoop]
  | succ n ih =>
      intro cnt
      rw [moveLoop]
      cases h : attemptOK (out cnt) exp with
      | true => simpa [h] using attemptEvents_not_unlinkSrc (out cnt) exp
      | false =>
          simp only [h, Bool.false_eq_true, if_false, List.mem_append, not_or]
          exact ⟨attemptEvents_not_unlinkSrc (out cnt) exp, ih (cnt + 1)⟩

theorem moveLoop_success_verified (out : Nat → AttemptOutcome) (e : String) :
    ∀ rem cnt, (moveLoop out (some e) cnt rem).2 = true →
      ∃ k, cnt ≤ k ∧ k < cnt + rem ∧ out k = AttemptOutcome.checksummed e := by
  intro rem
  induction rem with
  | zero => intro cnt h; simp [moveLoop] at h
  | succ n ih =>
      intro cnt h
      rw [moveLoop] at h
      cases hOK : attemptOK (out cnt) (some e) with
      | true =>
          refine ⟨cnt, Nat.le_refl _, by omega, ?_⟩
          cases ho : out cnt with
          | ioError de => rw [ho] at hOK; simp [attemptOK] at hOK
          | checksummed c =>
              rw [ho] at hOK
              simp only [attemptOK, beq_iff_eq] at hOK
              rw [hOK]
      | false =>
          rw [hOK] at h
          simp only [Bool.false_eq_true, if_false] at h
          obtain ⟨k, h1, h2, h3⟩ := ih (cnt + 1) h
          exact ⟨k, by omega, by omega, h3⟩

theorem moveLoop_allfail (out : Nat → AttemptOutcome) (exp : Option String) :
    ∀ rem cnt, (∀ k, cnt ≤ k → k < cnt + rem → attemptOK (out k) exp = false) →
      (moveLoop out exp cnt rem).2 = false := by
  intro rem
  induction rem with
  | zero => intro cnt _; simp [moveLoop]
  | succ n ih =>
      intro cnt hall
      rw [moveLoop]
      have h0 : attemptOK (out cnt) exp = false := hall cnt (Nat.le_refl _) (by omega)
      simp only [h0, Bool.false_eq_true, if_false]
      exact ih (cnt + 1) (fun k hk1 hk2 => hall k (by omega) (by omega))

theorem attemptEvents_count_copy (o : AttemptOutcome) (exp : Option String) :
    (attemptEvents o exp).count MoveEvent.copyAttempt = 1 := by
  cases o with
  | ioError de => cases de <;> simp [attemptEvents]
  | checksummed c =>
      cases exp with
      | none => simp [attemptEvents]
      | some e => cases h : (c == e) <;> simp [attemptEvents, h]

theorem moveLoop_copy_bound (out : Nat → AttemptOutcome) (exp : Option String) :
    ∀ rem cnt, ((moveLoop out exp cnt rem).1.count MoveEvent.copyAttempt) ≤ rem := by
  intro rem
  induction rem with
  | zero => intro cnt; simp [moveLoop]
  | succ n ih =>
      intro cnt
      rw [moveLoop]
      cases h : attemptOK (out cnt) exp with
      | true => simp [h, attemptEvents_count_copy]
      | false =>
          simp only [h, Bool.false_eq_true, if_false, List.count_append,
            attemptEvents_count_copy]
          have := ih (cnt + 1)
          omega

theorem oor_none (x : Option String) : oor x none = x := by
  cases x <;> rfl

theorem oor_absorb (x : Option String) (v : String) (b : Option String) :
    oor (oor x (some v)) b = oor x (some v) := by
  cases x <;> rfl

theorem find?_append_oor (p : String → Bool) (l1 l2 : List String) :
    (l1 ++ l2).find? p = oor (l1.find? p) (l2.find? p) := by
  induction l1 with
  | nil => simp [oor]
  | cons x xs ih =>
      cases h : p x with
      | true => simp [List.find?_cons_of_pos, h, oor]
      | false => simp [List.find?_cons_of_neg, h, ih]

theorem gfold_eq (files : List String) :
    ∀ a b c : Option String,
      files.foldl gfStep (a, b, c) =
        (oor (files.reverse.find? isPayloadFile) a,
         oor (files.reverse.find? isInfoFile) b,
         oor (files.reverse.find? isDigestFile) c) := by
  induction files with
  | nil => intro a b c; simp [oor]
  | cons f fs ih =>
      intro a b c
      rw [List.foldl_cons, List.reverse_cons, find?_append_oor, find?_append_oor,
        find?_append_oor]
      cases hi : strEndsWith f ".info" with
      | true =>
          have e1 : [f].find? isPayloadFile = none := by
            simp [List.find?, isPayloadFile, hi]
          have e2 : [f].find? isInfoFile = some f := by
            simp [List.find?, isInfoFile, hi]
          have e3 : [f].find? isDigestFile = none := by
            simp [List.find?, isDigestFile, hi]
          rw [e1, e2, e3, show gfStep (a, b, c) f = (a, some f, c) by
            simp [gfStep, hi]]
          rw [ih]
          rw [oor_none, oor_none, oor_absorb]
      | false =>
          cases hd : strEndsWith f ".digest" with
          | true =>
              have e1 : [f].find? isPayloadFile = none := by
                simp [List.find?, isPayloadFile, hi, hd]
              have e2 : [f].find? isInfoFile = none := by
                simp [List.find?, isInfoFile, hi]
              have e3 : [f].find? isDigestFile = some f := by
                simp [List.find?, isDigestFile, hi, hd]
              rw [e1, e2, e3, show gfStep (a, b, c) f = (a, b, some f) by
                simp [gfStep, hi, hd]]
              rw [ih]
              rw [oor_none, oor_none, oor_absorb]
          | false =>
              have e1 : [f].find? isPayloadFile = some f := by
                simp [List.find?, isPayloadFile, hi, hd]
              have e2 : [f].find? isInfoFile = none := by
                simp [List.find?, isInfoFile, hi]
              have e3 : [f].find? isDigestFile = none := by
                simp [List.find?, isDigestFile, hi, hd]
              rw [e1, e2, e3, show gfStep (a, b, c) f = (some f, b, c) by
                simp [gfStep, hi, hd]]
              rw [ih]
              rw [oor_none, oor_none, oor_absorb]

theorem handle_bad_file_some (conn : DbConn) (info : SrcInfo) (ctx : BadContext)
    (msg : String) (pid : Nat) (hp : info.processId = some pid) :
    ∃ conn2 evs, handle_bad_file conn (some info) ctx msg = Except.ok (conn2, evs)
      ∧ Ev.insertBadFile msg ∈ evs
      ∧ conn2.pending = conn2.committed
      ∧ conn2.committed.datasets = conn.committed.datasets
      ∧ conn2.committed.datastore = conn.committed.datastore
      ∧ ∃ row : BadFileRow,
          conn2.committed.badFiles = conn.committed.badFiles ++ [row]
          ∧ row.rejectedMsg = msg
          ∧ row.deliveryDate = info.timestamp
          ∧ row.srcCols = some ⟨info.filename, info.datasetType, info.filesize,
              info.chksum, info.chksumType, pid⟩ := by
  obtain ⟨uuid, fname, dstype, chk, chktype, fsize, ts, u, pm, tarf, procId⟩ := info
  change procId = some pid at hp
  subst hp
  unfold handle_bad_file save_bad_file_db move_bad_file DbConn.rollback DbConn.commit
  refine ⟨_, _, rfl, ?_, rfl, rfl, rfl, _, rfl, rfl, rfl, rfl⟩
  simp

theorem resolve_process_tables (conn : DbConn) (info : SrcInfo) :
    (resolve_process conn info).2.1.pending.datastore = conn.pending.datastore
    ∧ (resolve_process conn info).2.1.pending.datasets = conn.pending.datasets
    ∧ (resolve_process conn info).2.1.pending.badFiles = conn.pending.badFiles := by
  unfold resolve_process save_registration_info create_new_process DbConn.commit
  cases get_registration_process_id conn.pending info.uuid <;> exact ⟨rfl, rfl, rfl⟩

/-! ### Claim theorems -/

/-- C1, counterexample: on a bundle that is accepted for storage (uuid already
registered, unique filename, free destination, clean transfer), the success
path of `handle_tarball` emits `removeTar` (line 432) strictly before the
transaction commit (line 434): the source archive is removed while the
transaction covering its Dataset, DatastoreEntry and end time is still
uncommitted, so the claim as stated is false. -/
theorem C1_counterexample :
    ∃ p, registration_phase exConn exInfo exFs = Except.ok p
      ∧ Ev.removeTar ∈ p.2
      ∧ removedOnlyAfterCommit p.2 = false := by
  exact ⟨_, rfl, by decide, by decide⟩

/-- C2, code bug (dbb_ingest_ats.py lines 269-278): when the resolved
destination already exists, `save_file_datastore` calls `handle_bad_file` with
the consistency message but neither raises nor returns, so execution continues:
the payload is copied onto the existing destination (`shutil.copy2`
overwrites), the source payload is unlinked, and the datastore row is inserted.
No ConsistencyError propagates, contradicting the claim that the destination is
never overwritten. -/
theorem C2_overwrite_bug :
    ∃ p, save_file_datastore exConn exInfoPid exFsDst 3 = Except.ok p
      ∧ p.2.1 = [Ev.rollbackDb, Ev.moveTarToBad, Ev.insertBadFile consistencyMsg,
          Ev.commitDb, Ev.move MoveEvent.copyAttempt, Ev.move MoveEvent.unlinkSrc,
          Ev.insertDatastore]
      ∧ filename_exists_in_dbb p.1.pending exInfoPid.filename = true := by
  exact ⟨_, rfl, by decide, by decide⟩

/-- C6, counterexample: `get_filenames` performs no file-count check.  With
four extracted files it returns a classification triple and raises nothing, so
processing proceeds past extraction; the claimed BundleFormatError does not
exist in the code. -/
theorem C6_counterexample :
    (["x1.fits", "x2.fits", "m.info", "d.digest"] : List String).length = 4
    ∧ get_filenames ["x1.fits", "x2.fits", "m.info", "d.digest"] =
        (some "x2.fits", some "m.info", some "d.digest") := by
  exact ⟨rfl, by decide⟩

/-- C6, amended: `get_filenames` does no count validation; it classifies each
file by suffix and keeps the last file of each class (payload = last name
matching neither suffix, manifest = last `.info`, digest = last `.digest`),
returning `none` for a missing class; extra files are silently ignored. -/
theorem C6_get_filenames_classification (files : List String) :
    get_filenames files =
      (files.reverse.find? isPayloadFile,
       files.reverse.find? isInfoFile,
       files.reverse.find? isDigestFile) := by
  have h := gfold_eq files none none none
  simpa [get_filenames, oor_none] using h

/-- C7, code bug (dbb_ingest_ats.py lines 505-514): when the manifest was not
parsed (`src_info is None`), `handle_bad_file` evaluates
`src_info["dataset_type"]` and `src_info["tar_filename"]` on `None` and raises
TypeError before any BadFileRecord is written — the claimed fallback to the
archive's mtime is unreachable.  When the manifest was parsed, exactly one
committed BadFileRecord with the manifest-derived fields and the manifest
delivery timestamp is written, as the claim says. -/
theorem C7_quarantine_record :
    handle_bad_file exConn none exBad "ValueError: f1.fits chksums (md5) do not match"
        = Except.error PyError.typeError
    ∧ (∃ p, handle_bad_file exConn (some exInfoPid) exBad DUPLICATE_MSG = Except.ok p
        ∧ p.1.committed.badFiles =
            exConn.committed.badFiles ++
              [⟨100, "f1.tar", "2020/07", 10, DUPLICATE_MSG, 200,
                some ⟨"f1.fits", "raw", 10, "abc", "md5", 5⟩⟩]) := by
  exact ⟨rfl, ⟨_, rfl, by decide⟩⟩

/-- C8, code bug (dbb_ingest_ats.py line 144): the format string
`"%Y-%m-%dT%%H:%M:%S.%f"` contains `%%H`, which matches a literal `%H` rather
than the hour, so a header timestamp of the documented form
`YYYY-MM-DDTHH:MM:SS.S` fails both parses and `get_observing_nite` raises
ValueError; the claimed cutoff rule (hour 13 < 14 gives the previous day,
here 20200101) never runs. -/
theorem C8_observing_nite_bug :
    get_observing_nite none "2020-01-02T13:00:00.0" = Except.error PyError.valueError
    ∧ strptimeTokens ("%Y-%m-%dT%%H:%M:%S.%f".toList) =
        some [FmtTok.year, FmtTok.lit '-', FmtTok.month, FmtTok.lit '-', FmtTok.day,
          FmtTok.lit 'T', FmtTok.lit '%', FmtTok.lit 'H', FmtTok.lit ':', FmtTok.minute,
          FmtTok.lit ':', FmtTok.second, FmtTok.lit '.', FmtTok.micro]
    ∧ fmtNite (prevDay ⟨2020, 1, 2, 13, 0, 0⟩) = "20200101" := by
  exact ⟨rfl, by decide, by decide⟩

/-- C10: with no expected checksum, the first attempt that raises no IOError is
accepted with no checksum comparison (any computed checksum `c` is accepted),
and the source file is then deleted. -/
theorem C10_no_expected (out : Nat → AttemptOutcome) (m : Nat) (c : String)
    (hm : 1 ≤ m) (h1 : out 1 = AttemptOutcome.checksummed c) :
    move_file_to_dbb out none m = ([MoveEvent.copyAttempt, MoveEvent.unlinkSrc], true) := by
  obtain ⟨n, rfl⟩ : ∃ n, m = n + 1 := ⟨m - 1, by omega⟩
  simp [move_file_to_dbb, moveLoop, h1, attemptOK, attemptEvents]

/-- Witness for C10 at a concrete attempt sequence. -/
theorem C10_no_expected_witness :
    move_file_to_dbb (fun _ => AttemptOutcome.checksummed "zz") none 5 =
      ([MoveEvent.copyAttempt, MoveEvent.unlinkSrc], true) :=
  C10_no_expected (fun _ => AttemptOutcome.checksummed "zz") 5 "zz" (by decide) rfl

theorem registration_phase_dup (conn : DbConn) (info : SrcInfo) (fs : FsEnv)
    (pid : Nat) (conn1 : DbConn) (evs1 : List Ev)
    (hres : resolve_process conn info = (pid, conn1, evs1))
    (hdup : filename_exists_in_dbb conn1.pending info.filename = true) :
    registration_phase conn info fs =
      (match handle_bad_file conn1 (some { info with processId := some pid }) fs.bad
          DUPLICATE_MSG with
       | Except.error e => Except.error e
       | Except.ok r2 => Except.ok (r2.1, evs1 ++ [Ev.dupCheck true] ++ r2.2)) := by
  unfold registration_phase
  rw [hres]
  simp only [hdup, if_true]

/-- C3: with an expected checksum, `move_file_to_dbb` deletes the source only
after some attempt produced a destination copy whose recomputed checksum equals
the expected one (and `unlinkSrc` is the final event); when every attempt up to
the bound fails, the result is the raised error with the source never unlinked;
the bound defaults to 5; a checksum-mismatch attempt deletes the partial
destination before the retry; and no more than `maxTries` copies are
attempted. -/
theorem C3_transfer_retry (out : Nat → AttemptOutcome) (e : String) (m : Nat) :
    DEFAULT_MV_TRIES = 5
    ∧ (∀ tr, move_file_to_dbb out (some e) m = (tr, true) →
        ((∃ k, 1 ≤ k ∧ k ≤ m ∧ out k = AttemptOutcome.checksummed e)
          ∧ ∃ pre, tr = pre ++ [MoveEvent.unlinkSrc] ∧ MoveEvent.unlinkSrc ∉ pre))
    ∧ ((∀ k, 1 ≤ k → k ≤ m → attemptOK (out k) (some e) = false) →
        ∃ tr, move_file_to_dbb out (some e) m = (tr, false) ∧ MoveEvent.unlinkSrc ∉ tr)
    ∧ (∀ c : String, (c == e) = false →
        attemptEvents (AttemptOutcome.checksummed c) (some e) =
          [MoveEvent.copyAttempt, MoveEvent.unlinkDst])
    ∧ (∀ tr b, move_file_to_dbb out (some e) m = (tr, b) →
        tr.count MoveEvent.copyAttempt ≤ m) := by
  refine ⟨rfl, ?_, ?_, ?_, ?_⟩
  · intro tr htr
    cases hL : (moveLoop out (some e) 1 m).2 with
    | false =>
        rw [show move_file_to_dbb out (some e) m = ((moveLoop out (some e) 1 m).1, false) from by
          simp [move_file_to_dbb, hL]] at htr
        exact absurd (congrArg Prod.snd htr) (by simp)
    | true =>
        rw [show move_file_to_dbb out (some e) m =
            ((moveLoop out (some e) 1 m).1 ++ [MoveEvent.unlinkSrc], true) from by
          simp [move_file_to_dbb, hL]] at htr
        have htr1 : (moveLoop out (some e) 1 m).1 ++ [MoveEvent.unlinkSrc] = tr :=
          congrArg Prod.fst htr
        constructor
        · obtain ⟨k, h1, h2, h3⟩ := moveLoop_success_verified out e m 1 hL
          exact ⟨k, h1, by omega, h3⟩
        · exact ⟨(moveLoop out (some e) 1 m).1, htr1.symm,
            moveLoop_not_unlinkSrc out (some e) m 1⟩
  · intro hall
    have hL : (moveLoop out (some e) 1 m).2 = false :=
      moveLoop_allfail out (some e) m 1 (fun k hk1 hk2 => hall k hk1 (by omega))
    refine ⟨(moveLoop out (some e) 1 m).1, ?_, moveLoop_not_unlinkSrc out (some e) m 1⟩
    simp [move_file_to_dbb, hL]
  · intro c hc
    simp [attemptEvents, hc]
  · intro tr b htr
    have hcnt := moveLoop_copy_bound out (some e) m 1
    cases hL : (moveLoop out (some e) 1 m).2 with
    | false =>
        rw [show move_file_to_dbb out (some e) m = ((moveLoop out (some e) 1 m).1, false) from by
          simp [move_file_to_dbb, hL]] at htr
        have h1 : (moveLoop out (some e) 1 m).1 = tr := congrArg Prod.fst htr
        rw [← h1]
        exact hcnt
    | true =>
        rw [show move_file_to_dbb out (some e) m =
            ((moveLoop out (some e) 1 m).1 ++ [MoveEvent.unlinkSrc], true) from by
          simp [move_file_to_dbb, hL]] at htr
        have h1 : (moveLoop out (some e) 1 m).1 ++ [MoveEvent.unlinkSrc] = tr :=
          congrArg Prod.fst htr
        rw [← h1, List.count_append]
        have h2 : ([MoveEvent.unlinkSrc].count MoveEvent.copyAttempt) = 0 := rfl
        omega

/-- Witness for C3 at a concrete attempt sequence (first attempt wrong
checksum, later attempts right) with the default bound of 5. -/
theorem C3_transfer_retry_witness :
    DEFAULT_MV_TRIES = 5
    ∧ (∀ tr, move_file_to_dbb wOut (some "good") 5 = (tr, true) →
        ((∃ k, 1 ≤ k ∧ k ≤ 5 ∧ wOut k = AttemptOutcome.checksummed "good")
          ∧ ∃ pre, tr = pre ++ [MoveEvent.unlinkSrc] ∧ MoveEvent.unlinkSrc ∉ pre))
    ∧ ((∀ k, 1 ≤ k → k ≤ 5 → attemptOK (wOut k) (some "good") = false) →
        ∃ tr, move_file_to_dbb wOut (some "good") 5 = (tr, false) ∧ MoveEvent.unlinkSrc ∉ tr)
    ∧ (∀ c : String, (c == "good") = false →
        attemptEvents (AttemptOutcome.checksummed c) (some "good") =
          [MoveEvent.copyAttempt, MoveEvent.unlinkDst])
    ∧ (∀ tr b, move_file_to_dbb wOut (some "good") 5 = (tr, b) →
        tr.count MoveEvent.copyAttempt ≤ 5) :=
  C3_transfer_retry wOut "good" 5

/-- C4: the lookup-or-create of a RegistrationProcess by uuid is idempotent —
when the uuid already has a registered process the existing id is returned and
the connection is completely unchanged (no second process row); a new process
row (with lookup entry) is created only when the lookup found nothing. -/
theorem C4_process_idempotent (conn : DbConn) (info : SrcInfo) :
    (∀ pid, get_registration_process_id conn.pending info.uuid = some pid →
        resolve_process conn info = (pid, conn, [Ev.lookupProcess]))
    ∧ (get_registration_process_id conn.pending info.uuid = none →
        resolve_process conn info =
          (conn.processSeq,
            DbConn.commit
              { conn with
                  processSeq := conn.processSeq + 1,
                  pending := { conn.pending with
                    processes := conn.pending.processes ++
                      [⟨conn.processSeq, info.timestamp, false⟩],
                    fileRegistration := conn.pending.fileRegistration ++ [conn.processSeq],
                    fileRegLookup := conn.pending.fileRegLookup ++
                      [(info.uuid, conn.processSeq)] } },
            [Ev.lookupProcess, Ev.createProcess, Ev.commitDb])) := by
  constructor
  · intro pid h
    unfold resolve_process
    rw [h]
  · intro h
    unfold resolve_process
    rw [h]
    rfl

/-- Witness for C4: uuid `u-1` is already registered as process 5 in `exConn`,
and the lookup-or-create returns 5 without touching the connection. -/
theorem C4_process_idempotent_witness :
    resolve_process exConn exInfo = (5, exConn, [Ev.lookupProcess]) :=
  (C4_process_idempotent exConn exInfo).1 5 rfl

/-- C5: a bundle whose payload filename already has a DatastoreEntry is
quarantined with the duplicate-specific message, no Dataset row is created
(committed datasets unchanged), and the existing DatastoreEntry rows are left
untouched; exactly one BadFileRecord with the duplicate message is added. -/
theorem C5_duplicate_rejection (conn : DbConn) (info : SrcInfo) (fs : FsEnv)
    (hsync : conn.pending = conn.committed)
    (hdup : filename_exists_in_dbb conn.pending info.filename = true) :
    ∃ conn2 evs, registration_phase conn info fs = Except.ok (conn2, evs)
      ∧ Ev.insertBadFile DUPLICATE_MSG ∈ evs
      ∧ conn2.committed.datasets = conn.committed.datasets
      ∧ conn2.committed.datastore = conn.committed.datastore
      ∧ ∃ row : BadFileRow, conn2.committed.badFiles = conn.committed.badFiles ++ [row]
          ∧ row.rejectedMsg = DUPLICATE_MSG := by
  cases hlk : get_registration_process_id conn.pending info.uuid with
  | some pid =>
      have hres : resolve_process conn info = (pid, conn, [Ev.lookupProcess]) := by
        unfold resolve_process
        rw [hlk]
      rw [registration_phase_dup conn info fs pid conn [Ev.lookupProcess] hres hdup]
      obtain ⟨conn2, evs, heq, hmem, hpc, hds2, hdst2, row, hbf2, hmsg, hdd, hsc⟩ :=
        handle_bad_file_some conn { info with processId := some pid } fs.bad
          DUPLICATE_MSG pid rfl
      rw [heq]
      exact ⟨conn2, _, rfl, by simp [hmem], hds2, hdst2, row, hbf2, hmsg⟩
  | none =>
      have hres : resolve_process conn info =
          ((save_registration_info conn info).1, (save_registration_info conn info).2,
            [Ev.lookupProcess, Ev.createProcess, Ev.commitDb]) := by
        unfold resolve_process
        rw [hlk]
      have hdup1 : filename_exists_in_dbb (save_registration_info conn info).2.pending
          info.filename = true := hdup
      rw [registration_phase_dup conn info fs (save_registration_info conn info).1
        (save_registration_info conn info).2 _ hres hdup1]
      obtain ⟨conn2, evs, heq, hmem, hpc, hds2, hdst2, row, hbf2, hmsg, hdd, hsc⟩ :=
        handle_bad_file_some (save_registration_info conn info).2
          { info with processId := some (save_registration_info conn info).1 } fs.bad
          DUPLICATE_MSG (save_registration_info conn info).1 rfl
      rw [heq]
      refine ⟨conn2, _, rfl, by simp [hmem], ?_, ?_, row, ?_, hmsg⟩
      · rw [hds2]
        show conn.pending.datasets = conn.committed.datasets
        rw [hsync]
      · rw [hdst2]
        show conn.pending.datastore = conn.committed.datastore
        rw [hsync]
      · rw [hbf2]
        show conn.pending.badFiles ++ [row] = conn.committed.badFiles ++ [row]
        rw [hsync]

/-- Witness for C5: `dupConn` already stores filename `f1.fits`, and
reprocessing a bundle with that filename quarantines it and leaves the
committed dataset and datastore tables unchanged. -/
theorem C5_duplicate_rejection_witness :
    ∃ conn2 evs, registration_phase dupConn exInfo exFs = Except.ok (conn2, evs)
      ∧ Ev.insertBadFile DUPLICATE_MSG ∈ evs
      ∧ conn2.committed.datasets = dupConn.committed.datasets
      ∧ conn2.committed.datastore = dupConn.committed.datastore
      ∧ ∃ row : BadFileRow, conn2.committed.badFiles = dupConn.committed.badFiles ++ [row]
          ∧ row.rejectedMsg = DUPLICATE_MSG :=
  C5_duplicate_rejection dupConn exInfo exFs rfl (by decide)

/-- C1, amended: on the success path (unique filename, free destination,
successful transfer) the archive removal happens after the DatastoreEntry
insert but immediately before the end-time update and the transaction commit —
the trace always ends `removeTar, saveEndTime, commitDb`. -/
theorem C1_remove_before_commit (conn : DbConn) (info : SrcInfo) (fs : FsEnv)
    (tr : List MoveEvent)
    (hdup : filename_exists_in_dbb conn.pending info.filename = false)
    (hdst : fs.dstExists = false)
    (hmv : move_file_to_dbb fs.out (some info.chksum) DEFAULT_MV_TRIES = (tr, true)) :
    ∃ conn2 pre, registration_phase conn info fs =
        Except.ok (conn2, pre ++ [Ev.removeTar, Ev.saveEndTime, Ev.commitDb])
      ∧ Ev.insertDatastore ∈ pre := by
  unfold registration_phase save_file_datastore
  cases hlk : get_registration_process_id conn.pending info.uuid with
  | some pid =>
      have hres : resolve_process conn info = (pid, conn, [Ev.lookupProcess]) := by
        unfold resolve_process
        rw [hlk]
      rw [hres]
      simp only [hdup, hdst, hmv, Bool.false_eq_true, if_false, if_true]
      exact ⟨_, _, rfl, by simp⟩
  | none =>
      have hres : resolve_process conn info =
          ((save_registration_info conn info).1, (save_registration_info conn info).2,
            [Ev.lookupProcess, Ev.createProcess, Ev.commitDb]) := by
        unfold resolve_process
        rw [hlk]
      have hdup1 : filename_exists_in_dbb (save_registration_info conn info).2.pending
          info.filename = false := hdup
      rw [hres]
      simp only [hdup1, hdst, hmv, Bool.false_eq_true, if_false, if_true]
      exact ⟨_, _, rfl, by simp⟩

/-- Witness for C1's amended claim on the concrete accepted bundle. -/
theorem C1_remove_before_commit_witness :
    ∃ conn2 pre, registration_phase exConn exInfo exFs =
        Except.ok (conn2, pre ++ [Ev.removeTar, Ev.saveEndTime, Ev.commitDb])
      ∧ Ev.insertDatastore ∈ pre :=
  C1_remove_before_commit exConn exInfo exFs [MoveEvent.copyAttempt, MoveEvent.unlinkSrc]
    (by decide) rfl (by decide)

/-- C9: the delivery scanner includes exactly the non-directory entries of the
staging directory whose names end in `.tar` (everything else, including
subdirectories, is excluded), and the returned paths are sorted ascending by
modification time. -/
theorem C9_scanner (deliveryDir : String) (entries : List DirEntry)
    (getmtime : String → Nat) (l : List String)
    (h : get_list_tarballs true deliveryDir entries getmtime = Except.ok l) :
    (∀ s, s ∈ l → ∃ e, e ∈ entries ∧ e.isDir = false ∧ strEndsWith e.name ".tar" = true
        ∧ s = deliveryDir ++ "/" ++ e.name)
    ∧ (∀ e, e ∈ entries → e.isDir = false → strEndsWith e.name ".tar" = true →
        (deliveryDir ++ "/" ++ e.name) ∈ l)
    ∧ List.Sorted (fun a b => getmtime a ≤ getmtime b) l := by
  have hl : l = List.insertionSort (fun a b => getmtime a ≤ getmtime b)
      (((os_walk_files entries).filter (fun f => strEndsWith f ".tar")).map
        (fun f => deliveryDir ++ "/" ++ f)) := by
    unfold get_list_tarballs at h
    simp only [Bool.not_true, Bool.false_eq_true, if_false, Except.ok.injEq] at h
    exact h.symm
  subst hl
  refine ⟨?_, ?_, ?_⟩
  · intro s hs
    rw [List.mem_insertionSort] at hs
    simp only [List.mem_map, List.mem_filter, os_walk_files] at hs
    obtain ⟨f, ⟨hf1, hf2⟩, rfl⟩ := hs
    obtain ⟨e, he1, rfl⟩ := hf1
    exact ⟨e, he1.1, by simpa using he1.2, hf2, rfl⟩
  · intro e he h1 h2
    rw [List.mem_insertionSort]
    simp only [List.mem_map, List.mem_filter, os_walk_files]
    exact ⟨e.name, ⟨⟨e, ⟨he, by simp [h1]⟩, rfl⟩, h2⟩, rfl⟩
  · haveI : IsTotal String (fun a b => getmtime a ≤ getmtime b) :=
      ⟨fun a b => Nat.le_total _ _⟩
    haveI : IsTrans String (fun a b => getmtime a ≤ getmtime b) :=
      ⟨fun a b c h1 h2 => Nat.le_trans h1 h2⟩
    exact List.sorted_insertionSort _ _

/-- Witness for C9 on a concrete directory: two tarballs (returned oldest
first), a subdirectory and a non-`.tar` file (excluded). -/
theorem C9_scanner_witness :
    (∀ s, s ∈ (["d/a.tar", "d/b.tar"] : List String) → ∃ e, e ∈ w9entries ∧ e.isDir = false
        ∧ strEndsWith e.name ".tar" = true ∧ s = "d" ++ "/" ++ e.name)
    ∧ (∀ e, e ∈ w9entries → e.isDir = false → strEndsWith e.name ".tar" = true →
        ("d" ++ "/" ++ e.name) ∈ (["d/a.tar", "d/b.tar"] : List String))
    ∧ List.Sorted (fun a b => w9mtime a ≤ w9mtime b) (["d/a.tar", "d/b.tar"] : List String) :=
  C9_scanner "d" w9entries w9mtime ["d/a.tar", "d/b.tar"] (by rfl)

end DbbGateway

